import Mathlib

/-!
Verification of the calibration / scale / auto-addressing core of the
SmokeSignal floor-plan editor (`src/controllers/floor_plan_controller.py`,
`src/models/smoke_detector.py`).

The embedding is a shallow one: Python floats are modelled as rationals
(device coordinates, ranges) and reals (scale values, distances obtained
from `math.hypot`), Python `int(...)` / `float(...)` string conversions are
modelled by explicit parsers, and the mutable controller state is passed
explicitly.  GUI objects (scenes, pens, brushes, dialogs, pixmaps) carry no
data-model content and are omitted; where the code branches on GUI-supplied
data (the calibration dialog result, for example) the branch data is an
explicit argument.
-/

namespace SmokeSignal

/-- Model of Python `str.strip()`: remove leading and trailing whitespace.
(Implemented over the character list so that it reduces inside `decide`.) -/
def pyStrip (s : String) : String :=
  String.mk (((s.data.dropWhile Char.isWhitespace).reverse.dropWhile Char.isWhitespace).reverse)

/-- Numeric value of a list of decimal digit characters. -/
def digitsToNat (ds : List Char) : Nat :=
  ds.foldl (fun a c => a * 10 + (c.toNat - ('0').toNat)) 0

/-- Model of Python `int(s)` on strings: optional surrounding whitespace,
optional sign, then a nonempty run of decimal digits.  (Underscore digit
separators, which Python also accepts, are not modelled.) -/
def pyParseInt (s : String) : Option Int :=
  let t := pyStrip s
  match t.toList with
  | [] => none
  | c :: rest =>
    if c = '-' then
      if rest ≠ [] ∧ rest.all Char.isDigit then some (-(digitsToNat rest : Int)) else none
    else if c = '+' then
      if rest ≠ [] ∧ rest.all Char.isDigit then some (digitsToNat rest : Int) else none
    else
      if (c :: rest).all Char.isDigit then some (digitsToNat (c :: rest) : Int) else none

/-- Unsigned decimal part of Python `float(s)`: `digits`, `digits.digits`,
`digits.` or `.digits`. -/
def pyParseUnsignedFloat (cs : List Char) : Option ℚ :=
  let ip := cs.takeWhile Char.isDigit
  let rest := cs.dropWhile Char.isDigit
  match rest with
  | [] => if ip ≠ [] then some (digitsToNat ip : ℚ) else none
  | c :: fp =>
    if c = '.' ∧ fp.all Char.isDigit ∧ (ip ≠ [] ∨ fp ≠ []) then
      some ((digitsToNat ip : ℚ) + (digitsToNat fp : ℚ) / 10 ^ fp.length)
    else none

/-- Model of Python `float(s)` on strings: optional surrounding whitespace,
optional sign, then a decimal literal.  (Exponent forms, `inf` and `nan`,
which Python also accepts, are not modelled.) -/
def pyParseFloat (s : String) : Option ℚ :=
  let t := pyStrip s
  match t.toList with
  | [] => none
  | c :: rest =>
    if c = '-' then (pyParseUnsignedFloat rest).map (fun q => -q)
    else if c = '+' then pyParseUnsignedFloat rest
    else pyParseUnsignedFloat (c :: rest)

/-- Model of Python `f"{n:0wd}"`: decimal rendering of `n`, zero-padded on
the left (after the sign) to at least `w` characters. -/
def padInt (w : Nat) (n : Int) : String :=
  let sign := if n < 0 then ("-") else ("")
  let digits := toString n.natAbs
  let used := sign.length + digits.length
  if used < w then sign ++ String.mk (List.replicate (w - used) '0') ++ digits
  else sign ++ digits

/-- `BaseDevice.get_full_address_label` (`smoke_detector.py:259-275`):
strip the three fields; if any is empty return `""`; if all three parse as
Python ints return `f"{bus:02d}-{group}{addr:03d}"`; otherwise the raw
concatenation `f"{bus}-{group}{addr}"` of the stripped fields. -/
def get_full_address_label (bus_number group address : String) : String :=
  let bus := pyStrip bus_number
  let grp := pyStrip group
  let addr := pyStrip address
  if bus ≠ "" ∧ grp ≠ "" ∧ addr ≠ "" then
    match pyParseInt bus, pyParseInt grp, pyParseInt addr with
    | some bus_i, some group_i, some addr_i =>
        padInt 2 bus_i ++ "-" ++ toString group_i ++ padInt 3 addr_i
    | _, _, _ => bus ++ "-" ++ grp ++ addr
  else ("")

example : pyParseInt ("01") = some 1 := by decide
example : pyParseInt (" -5 ") = some (-5) := by decide
example : pyParseInt ("x") = none := by decide
example : pyParseFloat ("abc") = none := by decide
example : pyParseFloat ("1:100") = none := by decide
example : padInt 2 1 = "01" := by decide
example : padInt 3 15 = "015" := by decide
example : get_full_address_label ("1") ("2") ("15") = "01-2015" := by decide
example : get_full_address_label ("1") ("") ("15") = "" := by decide
example : get_full_address_label ("A") ("B") ("C") = "A-BC" := by decide

/-- The controller's `scale` attribute: either a number (meters per pixel)
or a raw string (an unresolved ratio such as `1:100`, or any other
unparseable text). -/
inductive ScaleVal where
  | num : ℝ → ScaleVal
  | raw : String → ScaleVal

/-- The condition `isinstance(self.scale, (int, float)) and float(self.scale) > 0`
used by `validate_project`, `set_detector_range` and `_on_measure_point`. -/
def ScaleVal.resolved : ScaleVal → Prop
  | .num r => 0 < r
  | .raw _ => False

/-- `FloorPlanController.set_scale` (`floor_plan_controller.py:904-985`) in
the absence of a PDF floor plan (no PDF is loaded in the data model here, so
the `1:N` auto-calibration branch always falls through to storing the raw
text): a number is stored directly; a string is stripped, a `1:...` ratio
string is stored raw, any other string is stored as a number when it parses
as a float and raw otherwise. -/
def set_scale : ScaleVal → ScaleVal
  | .num r => .num r
  | .raw s =>
    let text := pyStrip s
    if (['1', ':']).isPrefixOf text.toList then .raw text
    else
      match pyParseFloat text with
      | some v => .num ((v : ℝ))
      | none => .raw text

theorem set_scale_num (r : ℝ) : set_scale (.num r) = .num r := rfl

/-- One placed device (`BaseDevice` and its subclasses in
`smoke_detector.py`): scene position plus the data-model attributes.
`range` and `paired_sn` exist as Python attributes only on `SmokeDetector`;
for the other device kinds the record carries the `getattr` defaults
`0` and `""` used throughout the controller. -/
structure Device where
  x : ℚ
  y : ℚ
  model : String
  bus_number : String
  group : String
  address : String
  room_id : String
  serial_number : String
  qr_data : String
  brand : String
  paired_sn : String
  device_type : String
  range : ℚ
  deriving DecidableEq, Inhabited, Repr

/-- `math.hypot(dx, dy)` on plan coordinates. -/
noncomputable def hypot (dx dy : ℚ) : ℝ :=
  Real.sqrt ((dx : ℝ) ^ 2 + (dy : ℝ) ^ 2)

/-- Pixel (Euclidean) distance between two clicked points. -/
noncomputable def pixelDistance (p1 p2 : ℚ × ℚ) : ℝ :=
  hypot (p2.1 - p1.1) (p2.2 - p1.2)

theorem hypot_nonneg (dx dy : ℚ) : 0 ≤ hypot dx dy := Real.sqrt_nonneg _

theorem hypot_pos_iff (dx dy : ℚ) : 0 < hypot dx dy ↔ ¬(dx = 0 ∧ dy = 0) := by
  rw [hypot, Real.sqrt_pos]
  constructor
  · rintro h ⟨h1, h2⟩
    simp [h1, h2] at h
  · intro h
    rcases lt_or_eq_of_le (add_nonneg (sq_nonneg ((dx : ℝ))) (sq_nonneg ((dy : ℝ)))) with h' | h'
    · exact h'
    · exfalso
      apply h
      have h1 : ((dx : ℝ)) ^ 2 = 0 ∧ ((dy : ℝ)) ^ 2 = 0 := by
        constructor <;> nlinarith [sq_nonneg ((dx : ℝ)), sq_nonneg ((dy : ℝ))]
      constructor
      · exact_mod_cast pow_eq_zero_iff (n := 2) (by norm_num) |>.mp h1.1
      · exact_mod_cast pow_eq_zero_iff (n := 2) (by norm_num) |>.mp h1.2

/-- `FloorPlanController._on_calibration_point`, second-point branch
(`floor_plan_controller.py:510-559`): after the two calibration points are
collected the user is asked for a distance; `ok` and `meters` are the
dialog result.  On `not ok or meters <= 0 or pixel_distance <= 0` the
stored scale is untouched; otherwise `meters / pixel_distance` is committed
through `set_scale`. -/
noncomputable def onCalibrationDistance (p1 p2 : ℚ × ℚ) (ok : Bool) (meters : ℝ)
    (scale : ScaleVal) : ScaleVal :=
  let pixel_distance := pixelDistance p1 p2
  if ok = false ∨ meters ≤ 0 ∨ pixel_distance ≤ 0 then scale
  else set_scale (.num (meters / pixel_distance))

/-- Claim C1 (confirmed): for a calibration session with two clicked points
and dialog result `(ok, D)`: when the dialog succeeded with `D > 0` and the
pixel distance is non-degenerate, the committed scale is `D / pixelDistance`
(meters per pixel); when the dialog was cancelled, `D ≤ 0`, or the pixel
distance is degenerate (zero), the stored scale is unchanged. -/
theorem C1_calibration_commit (p1 p2 : ℚ × ℚ) (ok : Bool) (D : ℝ) (sc : ScaleVal) :
    (ok = true → 0 < D → 0 < pixelDistance p1 p2 →
      onCalibrationDistance p1 p2 ok D sc = .num (D / pixelDistance p1 p2))
    ∧ (ok = false ∨ D ≤ 0 ∨ pixelDistance p1 p2 = 0 →
      onCalibrationDistance p1 p2 ok D sc = sc) := by
  constructor
  · intro hok hD hpix
    rw [onCalibrationDistance, if_neg]
    · rfl
    · push_neg
      exact ⟨by simp [hok], by linarith, by linarith⟩
  · intro h
    rw [onCalibrationDistance, if_pos]
    rcases h with h | h | h
    · exact Or.inl h
    · exact Or.inr (Or.inl h)
    · exact Or.inr (Or.inr (le_of_eq h))

/-- Witness for C1 at the concrete session `p1 = (0,0)`, `p2 = (1,0)`,
`ok = true`, `D = 2`: the commit fires and stores `2 / pixelDistance`. -/
theorem C1_calibration_commit_witness :
    0 < (2 : ℝ) ∧ 0 < pixelDistance (0, 0) (1, 0) ∧
      onCalibrationDistance (0, 0) (1, 0) true 2 (.raw ("unset")) =
        .num (2 / pixelDistance (0, 0) (1, 0)) := by
  have hpix : 0 < pixelDistance (0, 0) (1, 0) := by
    show 0 < hypot (1 - 0) (0 - 0)
    rw [show (1 - 0 : ℚ) = 1 by norm_num, show (0 - 0 : ℚ) = 0 by norm_num]
    exact (hypot_pos_iff 1 0).mpr (by decide)
  exact ⟨by norm_num, hpix,
    (C1_calibration_commit (0, 0) (1, 0) true 2 (.raw ("unset"))).1 rfl (by norm_num) hpix⟩

/-- Claim C4, counterexample: on the claim's own example `bus = "1"`,
`group = "2"`, `address = "15"` the code produces `"01-2015"` (the address
is zero-padded to three digits after the group digit), not `"01-215"`; and
for `group = "02"` the group is rendered as its integer value `"2"`, not
verbatim, so the label differs from the claimed
`pad2 bus ++ "-" ++ group ++ pad3 address` shape. -/
theorem C4_label_counterexample :
    get_full_address_label ("1") ("2") ("15") = "01-2015" ∧
    get_full_address_label ("1") ("2") ("15") ≠ "01-215" ∧
    get_full_address_label ("1") ("02") ("15") = "01-2015" ∧
    get_full_address_label ("1") ("02") ("15") ≠ "01-" ++ "02" ++ "015" := by
  decide

/-- Claim C4 (amended): the full address label is `""` whenever any of the
three stripped fields is empty; when all three fields parse as Python
integers the label is the bus zero-padded to 2 digits, `"-"`, the group's
integer value in plain decimal (leading zeros normalized away), and the
address zero-padded to 3 digits (so bus `"1"`, group `"2"`, address `"15"`
give `"01-2015"`); when the fields are non-empty but not all
integer-parseable the label is the raw concatenation `bus-groupaddress` of
the stripped fields. -/
theorem C4_label_format (bus_number group address : String) :
    (pyStrip bus_number = "" ∨ pyStrip group = "" ∨ pyStrip address = "" →
      get_full_address_label bus_number group address = "") ∧
    (∀ b g a : Int, pyParseInt (pyStrip bus_number) = some b →
      pyParseInt (pyStrip group) = some g →
      pyParseInt (pyStrip address) = some a →
      pyStrip bus_number ≠ "" → pyStrip group ≠ "" → pyStrip address ≠ "" →
      get_full_address_label bus_number group address =
        padInt 2 b ++ "-" ++ toString g ++ padInt 3 a) ∧
    (pyParseInt (pyStrip bus_number) = none ∨ pyParseInt (pyStrip group) = none ∨
        pyParseInt (pyStrip address) = none →
      pyStrip bus_number ≠ "" → pyStrip group ≠ "" → pyStrip address ≠ "" →
      get_full_address_label bus_number group address =
        pyStrip bus_number ++ "-" ++ pyStrip group ++ pyStrip address) := by
  refine ⟨?_, ?_, ?_⟩
  · intro h
    rw [get_full_address_label, if_neg]
    tauto
  · intro b g a hb hg ha hb' hg' ha'
    rw [get_full_address_label, if_pos ⟨hb', hg', ha'⟩]
    rw [hb, hg, ha]
  · intro h hb' hg' ha'
    rw [get_full_address_label, if_pos ⟨hb', hg', ha'⟩]
    rcases h with h | h | h <;> rw [h] <;>
      cases pyParseInt (pyStrip bus_number) <;>
      cases pyParseInt (pyStrip group) <;>
      cases pyParseInt (pyStrip address) <;> rfl

/-- Witness for C4 at `bus = "1"`, `group = "2"`, `address = "15"`: all
three parse, and the label is `"01-2015"`. -/
theorem C4_label_format_witness :
    pyParseInt (pyStrip ("1")) = some 1 ∧ pyParseInt (pyStrip ("2")) = some 2 ∧
      pyParseInt (pyStrip ("15")) = some 15 ∧
      get_full_address_label ("1") ("2") ("15") =
        padInt 2 1 ++ "-" ++ toString (2 : Int) ++ padInt 3 15 :=
  ⟨by decide, by decide, by decide,
    (C4_label_format ("1") ("2") ("15")).2.1 1 2 15 (by decide) (by decide) (by decide)
      (by decide) (by decide) (by decide)⟩

/-- The (bus, group) comparison inside `FloorPlanController.start_auto_address`
(`floor_plan_controller.py:1006-1024`).  The Python code runs
`int(dbus) == int(tbus) and int(dgroup) == int(tgroup)` inside a single
`try`, falling back to `dbus == tbus and dgroup == tgroup` when a
conversion raises.  Evaluation is left-to-right with `and` short-circuit:
a failing `int()` on the bus side always raises; a failing `int()` on the
group side raises only when the bus values were equal (otherwise the `and`
short-circuits to a plain `False` and no fallback happens). -/
def busGroupMatch (dbus dgroup tbus tgroup : String) : Bool :=
  match pyParseInt dbus with
  | none => dbus == tbus && dgroup == tgroup
  | some db =>
    match pyParseInt tbus with
    | none => dbus == tbus && dgroup == tgroup
    | some tb =>
      if db = tb then
        match pyParseInt dgroup, pyParseInt tgroup with
        | some dg, some tg => dg == tg
        | _, _ => dbus == tbus && dgroup == tgroup
      else false

/-- Claim C3, counterexample: device `(bus, group) = ("01", "x")` against
target `("1", "x")`.  The bus fields both parse as the integer `1` and the
group fields (where parsing fails) are exactly equal strings, so the claim
predicts a match — but the code's joint fallback compares `"01" == "1"` and
reports no match. -/
theorem C3_match_counterexample :
    busGroupMatch ("01") ("x") ("1") ("x") = false ∧
    pyParseInt ("01") = some 1 ∧ pyParseInt ("1") = some 1 ∧
    pyParseInt ("x") = none := by
  decide

/-- Claim C3 (amended): the two fields are not normalized independently.
The pair matches exactly when: both bus fields parse as equal integers and
either both group fields parse as equal integers, or a group parse fails
and the two raw (bus, group) string pairs are exactly equal; or a bus parse
fails and the two raw string pairs are exactly equal.  When both bus fields
parse with different values there is no match regardless of the group
fields. -/
theorem C3_match_characterization (dbus dgroup tbus tgroup : String) :
    busGroupMatch dbus dgroup tbus tgroup = true ↔
      ((∃ db tb, pyParseInt dbus = some db ∧ pyParseInt tbus = some tb ∧ db = tb ∧
          ((∃ dg tg, pyParseInt dgroup = some dg ∧ pyParseInt tgroup = some tg ∧ dg = tg) ∨
            ((pyParseInt dgroup = none ∨ pyParseInt tgroup = none) ∧
              dbus = tbus ∧ dgroup = tgroup)))
        ∨ ((pyParseInt dbus = none ∨ pyParseInt tbus = none) ∧
            dbus = tbus ∧ dgroup = tgroup)) := by
  unfold busGroupMatch
  cases hdb : pyParseInt dbus with
  | none => simp [hdb]
  | some db =>
    cases htb : pyParseInt tbus with
    | none => simp [hdb, htb]
    | some tb =>
      by_cases hbt : db = tb
      · subst hbt
        cases hdg : pyParseInt dgroup with
        | none => simp [hdb, htb, hdg]
        | some dg =>
          cases htg : pyParseInt tgroup with
          | none => simp [hdb, htb, hdg, htg]
          | some tg => simp [hdb, htb, hdg, htg]
      · simp only [if_neg hbt]
        constructor
        · intro h
          exact absurd h (by simp)
        · rintro (⟨db', tb', hdb', htb', hbt', _⟩ | ⟨h, _, _⟩)
          · cases hdb'
            cases htb'
            exact absurd hbt' hbt
          · rcases h with h | h <;> cases h

/-- The controller's auto-addressing session state
(`_auto_address_enabled`, `_auto_bus_raw`, `_auto_group_raw`,
`_next_address`). -/
structure AutoAddrState where
  auto_address_enabled : Bool
  auto_bus_raw : Option String
  auto_group_raw : Option String
  next_address : Option Int
  deriving DecidableEq, Repr

/-- `FloorPlanController.start_auto_address` (`floor_plan_controller.py:987-1033`):
store the (stringified) targets, scan the detectors for the maximum integer
address among those whose stripped, non-empty (bus, group) pair matches the
target under `busGroupMatch`, and enable the cursor at that maximum plus
one.  The accumulator starts at 0, so the trailing
`max_addr + 1 if max_addr >= 0 else 1` always takes the first branch. -/
def scanStep (tbus tgroup : String) (max_addr : Int) (d : Device) : Int :=
  let dbus := pyStrip d.bus_number
  let dgroup := pyStrip d.group
  if dbus = "" ∨ dgroup = "" then max_addr
  else if busGroupMatch dbus dgroup tbus tgroup then
    match pyParseInt d.address with
    | some a_i => if a_i > max_addr then a_i else max_addr
    | none => max_addr
  else max_addr

def start_auto_address (detectors : List Device) (bus_raw group_raw : Option String) :
    AutoAddrState :=
  let tbus := bus_raw.getD ("")
  let tgroup := group_raw.getD ("")
  let max_addr := detectors.foldl (scanStep tbus tgroup) 0
  { auto_address_enabled := true
    auto_bus_raw := some tbus
    auto_group_raw := some tgroup
    next_address := some (if 0 ≤ max_addr then max_addr + 1 else 1) }

/-- `FloorPlanController.stop_auto_address` (`floor_plan_controller.py:1035-1042`). -/
def stop_auto_address : AutoAddrState :=
  { auto_address_enabled := false
    auto_bus_raw := none
    auto_group_raw := none
    next_address := none }

/-- Fresh device as built by `add_detector`'s class dispatch
(`floor_plan_controller.py:348-354` together with the `__init__` defaults in
`smoke_detector.py`): `"IO"` gives an `IOBox`, `"CallPoint"` a `CallPoint`,
anything else a `SmokeDetector` (whose default range is 6.2 m); non-detector
kinds have no `range`/`paired_sn` attribute, recorded here as the `getattr`
defaults `0` and `""`. -/
def mkFreshDevice (x y : ℚ) (device_type : String) : Device :=
  if device_type = "IO" then
    ⟨x, y, "", "", "", "", "", "", "", "", "", "IO", 0⟩
  else if device_type = "CallPoint" then
    ⟨x, y, "", "", "", "", "", "", "", "", "", "CallPoint", 0⟩
  else
    ⟨x, y, "", "", "", "", "", "", "", "", "", "Detector", 62/10⟩

/-- `FloorPlanController.add_detector` (`floor_plan_controller.py:341-394`):
create the device; when auto-addressing is enabled and the kind is
`"Detector"`, copy the stored bus/group, initialize the cursor by scanning
if it is unset, assign the cursor value (as a string) as the address and
increment the cursor (`int(str(n)) + 1` never fails for an integer cursor,
so the defensive `stop_auto_address` branch is unreachable); append the
device. -/
def add_detector (detectors : List Device) (auto : AutoAddrState) (x y : ℚ)
    (device_type : String) : List Device × AutoAddrState :=
  let device := mkFreshDevice x y device_type
  let step :=
    if device_type = "Detector" ∧ auto.auto_address_enabled = true then
      let device := match auto.auto_bus_raw with
        | some b => { device with bus_number := b }
        | none => device
      let device := match auto.auto_group_raw with
        | some g => { device with group := g }
        | none => device
      let auto := match auto.next_address with
        | none => start_auto_address detectors auto.auto_bus_raw auto.auto_group_raw
        | some _ => auto
      match auto.next_address with
      | some n => ({ device with address := toString n },
                   { auto with next_address := some (n + 1) })
      | none => (device, auto)
    else (device, auto)
  (detectors ++ [step.1], step.2)

/-- The numeric address contributed by one device to `start_auto_address`'s
scan: its parsed address when its stripped, non-empty (bus, group) pair
matches the target, and nothing otherwise. -/
def matchingNumericAddress (tbus tgroup : String) (d : Device) : Option Int :=
  if pyStrip d.bus_number ≠ "" ∧ pyStrip d.group ≠ "" ∧
      busGroupMatch (pyStrip d.bus_number) (pyStrip d.group) tbus tgroup = true then
    pyParseInt d.address
  else none

/-- All numeric addresses the scan accepts, in registry order. -/
def matchingNumericAddresses (detectors : List Device) (tbus tgroup : String) : List Int :=
  detectors.filterMap (matchingNumericAddress tbus tgroup)

theorem scanStep_eq_max (tbus tgroup : String) (acc : Int) (d : Device) :
    scanStep tbus tgroup acc d =
      match matchingNumericAddress tbus tgroup d with
      | some a => max acc a
      | none => acc := by
  rw [scanStep, matchingNumericAddress]
  by_cases h1 : pyStrip d.bus_number = "" ∨ pyStrip d.group = ""
  · have h2 : ¬(pyStrip d.bus_number ≠ "" ∧ pyStrip d.group ≠ "" ∧
        busGroupMatch (pyStrip d.bus_number) (pyStrip d.group) tbus tgroup = true) := by tauto
    rw [if_pos h1, if_neg h2]
  · push_neg at h1
    rw [if_neg (not_or.mpr ⟨h1.1, h1.2⟩)]
    by_cases h3 : busGroupMatch (pyStrip d.bus_number) (pyStrip d.group) tbus tgroup = true
    · rw [if_pos h3, if_pos ⟨h1.1, h1.2, h3⟩]
      cases pyParseInt d.address with
      | none => rfl
      | some a =>
        show (if a > acc then a else acc) = max acc a
        rcases lt_or_le acc a with h | h
        · rw [if_pos h, max_eq_right h.le]
        · rw [if_neg (not_lt.mpr h), max_eq_left h]
    · have h2 : ¬(pyStrip d.bus_number ≠ "" ∧ pyStrip d.group ≠ "" ∧
          busGroupMatch (pyStrip d.bus_number) (pyStrip d.group) tbus tgroup = true) := by tauto
      rw [if_neg h3, if_neg h2]

theorem start_auto_address_fold (detectors : List Device) (tbus tgroup : String) :
    ∀ acc : Int,
      detectors.foldl (scanStep tbus tgroup) acc =
        (matchingNumericAddresses detectors tbus tgroup).foldl max acc := by
  induction detectors with
  | nil => intro acc; rfl
  | cons d rest ih =>
    intro acc
    rw [List.foldl_cons, matchingNumericAddresses, List.filterMap_cons]
    rw [scanStep_eq_max]
    cases matchingNumericAddress tbus tgroup d with
    | none => exact ih acc
    | some a =>
      show _ = List.foldl max acc (a :: List.filterMap _ rest)
      rw [List.foldl_cons]
      exact ih (max acc a)

theorem le_foldl_max (l : List Int) : ∀ a : Int, a ≤ l.foldl max a := by
  induction l with
  | nil => intro a; exact le_refl a
  | cons b l ih => intro a; exact le_trans (le_max_left a b) (ih (max a b))

/-- Claim C2, counterexample: a registry holding one device with
`bus = "1"`, `group = "2"`, `address = "-5"`.  The device matches the
target `("1", "2")` and its numeric address `-5` is the maximum numeric
address of the group, so the claim predicts a cursor of `-5 + 1 = -4`; the
scan's accumulator starts at `0` and only moves up, so the code sets the
cursor to `1`. -/
theorem C2_auto_address_counterexample :
    (start_auto_address
        [⟨0, 0, "", ("1"), ("2"), ("-5"), "", "", "", "", "", ("Detector"), 0⟩]
        (some ("1")) (some ("2"))).next_address = some 1 ∧
    matchingNumericAddresses
        [⟨0, 0, "", ("1"), ("2"), ("-5"), "", "", "", "", "", ("Detector"), 0⟩]
        ("1") ("2") = [(-5 : Int)] ∧
    (1 : Int) ≠ (-5) + 1 := by
  decide

/-- Claim C2 (amended): `start(bus, group)` enables the cursor and sets it
to one plus the maximum of `0` and the numeric addresses of the matching
devices — a matching numeric address that is zero or negative never raises
the cursor, so with no positive matching numeric address the cursor is `1`.
The claim's scenario holds: starting with bus `"1"`, group `"2"` against an
empty registry, the first placed detector is assigned address `"1"`, and
after placing three detectors the next address is `4`. -/
theorem C2_auto_address_cursor (detectors : List Device)
    (bus_raw group_raw : Option String) :
    (start_auto_address detectors bus_raw group_raw).next_address =
      some (1 + (matchingNumericAddresses detectors (bus_raw.getD (""))
        (group_raw.getD (""))).foldl max 0) ∧
    (start_auto_address detectors bus_raw group_raw).auto_address_enabled = true ∧
    (let s0 := start_auto_address [] (some ("1")) (some ("2"))
     let p1 := add_detector [] s0 0 0 ("Detector")
     let p2 := add_detector p1.1 p1.2 1 0 ("Detector")
     let p3 := add_detector p2.1 p2.2 2 0 ("Detector")
     p1.1.map Device.address = [("1")] ∧
     p3.1.map Device.address = [("1"), ("2"), ("3")] ∧
     p3.2.next_address = some 4) := by
  refine ⟨?_, rfl, by decide⟩
  show some _ = _
  rw [start_auto_address_fold]
  have h := le_foldl_max (matchingNumericAddresses detectors (bus_raw.getD (""))
    (group_raw.getD (""))) 0
  rw [if_pos h]
  rw [add_comm]

/-- The serial-number occurrence counts built by
`FloorPlanController.update_detector_colors` (`floor_plan_controller.py:688-691`)
as a dictionary, modelled as a function `String → Nat` built by the same
left-to-right fold with `counts.get(sn, 0) + 1` updates. -/
def serialCounts (detectors : List Device) : String → Nat :=
  detectors.foldl
    (fun counts d => fun s => if s = d.serial_number then counts s + 1 else counts s)
    (fun _ => 0)

theorem serialCounts_eq_count (detectors : List Device) (s : String) :
    serialCounts detectors s = (detectors.map Device.serial_number).count s := by
  suffices h : ∀ (l : List Device) (f : String → Nat) (t : String),
      (l.foldl (fun counts d => fun u =>
        if u = d.serial_number then counts u + 1 else counts u) f) t =
      f t + (l.map Device.serial_number).count t by
    have := h detectors (fun _ => 0) s
    simpa [serialCounts] using this
  intro l
  induction l with
  | nil => intro f t; simp
  | cons d rest ih =>
    intro f t
    rw [List.foldl_cons, ih, List.map_cons, List.count_cons]
    by_cases h : t = d.serial_number
    · subst h
      simp
      omega
    · have h' : (t == d.serial_number) = false := beq_eq_false_iff_ne.mpr h
      simp [if_neg h, h']
      exact fun hc => h hc.symm

/-- `FloorPlanController.update_detector_colors`
(`floor_plan_controller.py:686-706`): each device is painted green when its
serial number is non-empty and occurs exactly once, orange otherwise.  The
result is the per-device uniqueness marking in registry order (`true` =
unique/green). -/
def update_detector_colors (detectors : List Device) : List Bool :=
  detectors.map (fun d =>
    let sn := d.serial_number
    !(sn == "") && (serialCounts detectors sn == 1))

/-- The marking described by the specification: a device is unique exactly
when its serial is non-empty and not shared, as a function of the multiset
of serial numbers only (it depends on the list of serials only through
`count`). -/
def uniqueSerialMark (serials : List String) (sn : String) : Bool :=
  !(sn == "") && (serials.count sn == 1)

/-- Claim C6 (confirmed): `update_detector_colors` marks as unique exactly
the devices whose serial number is non-empty and occurs exactly once in the
registry — i.e. it marks the devices with an empty or duplicated serial as
non-unique and every other device as unique — and the marking of each
device is a function of the multiset of serial numbers (via `count`) and
the device's own serial. -/
theorem C6_update_detector_colors (detectors : List Device) :
    update_detector_colors detectors =
      detectors.map (fun d =>
        uniqueSerialMark (detectors.map Device.serial_number) d.serial_number) := by
  unfold update_detector_colors uniqueSerialMark
  simp only [serialCounts_eq_count]

/-- The object-identity part of the controller state used by
`remove_detector`: `detectors` is the registry as a list of object
identities, `lines` the connection list as (start, end) identity pairs. -/
structure RefState where
  detectors : List Nat
  lines : List (Nat × Nat)
  deriving DecidableEq, Repr

/-- `FloorPlanController.remove_detector` (`floor_plan_controller.py:875-902`):
when the device is in the registry, every line whose start or end `is` the
device is removed, then the device itself is removed from the registry
(visual-item and recoloring side effects omitted). -/
def remove_detector (st : RefState) (detector : Nat) : RefState :=
  if detector ∈ st.detectors then
    { detectors := st.detectors.erase detector
      lines := st.lines.filter (fun ln => !(ln.1 == detector || ln.2 == detector)) }
  else st

/-- Claim C9 (confirmed): on a state whose connections all have live
endpoints (and whose registry has no duplicate identities — Python object
identities are distinct), removing a device removes every connection
touching it, and afterwards both endpoints of every remaining connection
are still live devices of the registry. -/
theorem C9_remove_detector_cascade (st : RefState) (d : Nat)
    (hnd : st.detectors.Nodup)
    (hinv : ∀ ln ∈ st.lines, ln.1 ∈ st.detectors ∧ ln.2 ∈ st.detectors) :
    ∀ ln ∈ (remove_detector st d).lines,
      ln.1 ≠ d ∧ ln.2 ≠ d ∧
      ln.1 ∈ (remove_detector st d).detectors ∧
      ln.2 ∈ (remove_detector st d).detectors := by
  intro ln hln
  rw [remove_detector] at hln ⊢
  by_cases hd : d ∈ st.detectors
  · rw [if_pos hd] at hln ⊢
    have hmem := List.mem_filter.mp hln
    have hne : ln.1 ≠ d ∧ ln.2 ≠ d := by
      have := hmem.2
      simp only [Bool.not_eq_true', Bool.or_eq_false_iff, beq_eq_false_iff_ne] at this
      exact this
    have hlive := hinv ln hmem.1
    exact ⟨hne.1, hne.2,
      (hnd.mem_erase_iff).mpr ⟨hne.1, hlive.1⟩,
      (hnd.mem_erase_iff).mpr ⟨hne.2, hlive.2⟩⟩
  · rw [if_neg hd] at hln ⊢
    have hlive := hinv ln hln
    exact ⟨fun h => hd (h ▸ hlive.1), fun h => hd (h ▸ hlive.2), hlive.1, hlive.2⟩

/-- Witness for C9: removing device 2 from a three-device registry with
two connections touching it leaves no dangling connection. -/
theorem C9_remove_detector_cascade_witness :
    (⟨[1, 2, 3], [(1, 2), (2, 3), (1, 3)]⟩ : RefState).detectors.Nodup ∧
    (∀ ln ∈ (⟨[1, 2, 3], [(1, 2), (2, 3), (1, 3)]⟩ : RefState).lines,
      ln.1 ∈ ([1, 2, 3] : List Nat) ∧ ln.2 ∈ ([1, 2, 3] : List Nat)) ∧
    (∀ ln ∈ (remove_detector ⟨[1, 2, 3], [(1, 2), (2, 3), (1, 3)]⟩ 2).lines,
      ln.1 ≠ 2 ∧ ln.2 ≠ 2 ∧
      ln.1 ∈ (remove_detector ⟨[1, 2, 3], [(1, 2), (2, 3), (1, 3)]⟩ 2).detectors ∧
      ln.2 ∈ (remove_detector ⟨[1, 2, 3], [(1, 2), (2, 3), (1, 3)]⟩ 2).detectors) :=
  ⟨by decide, by decide,
    C9_remove_detector_cascade ⟨[1, 2, 3], [(1, 2), (2, 3), (1, 3)]⟩ 2
      (by decide) (by decide)⟩

/-- All index pairs `(i, j)` with `i < j < n`, in the order generated by
`for i in range(n): for j in range(i+1, n)`. -/
def allPairs (n : Nat) : List (Nat × Nat) :=
  (List.range n).flatMap (fun i =>
    ((List.range n).filter (fun j => decide (i < j))).map (fun j => (i, j)))

theorem mem_allPairs (n a b : Nat) : (a, b) ∈ allPairs n ↔ a < b ∧ b < n := by
  simp only [allPairs, List.mem_flatMap, List.mem_map, List.mem_filter, List.mem_range,
    decide_eq_true_eq, Prod.mk.injEq]
  constructor
  · rintro ⟨i, _, j, ⟨hj, hij⟩, rfl, rfl⟩
    exact ⟨hij, hj⟩
  · rintro ⟨hab, hbn⟩
    exact ⟨a, by omega, b, ⟨hbn, hab⟩, rfl, rfl⟩

/-- Pixel distance between two devices as computed by the spacing loop
(`dx`/`dy` of positions, then `math.hypot`). -/
noncomputable def detDistance (a b : Device) : ℝ :=
  hypot (a.x - b.x) (a.y - b.y)

/-- The warning string `validate_project` emits when the scale is not a
positive number. -/
def spacingWarning : String :=
  "Project scale is not a numeric meters-per-pixel value; spacing checks were skipped. Calibrate project to enable spacing validation."

open Classical in
/-- The spacing-check section of `FloorPlanController.validate_project`
(`floor_plan_controller.py:322-338`): when the scale is a positive number,
the `i < j` pairwise loop reports every pair at `pix * scale < 0.5` meters
(reported here as the index pair rather than the formatted message); when
it is not, the loop is skipped and the single warning is emitted. -/
noncomputable def validate_project_spacing (scale : ScaleVal) (detectors : List Device) :
    List (Nat × Nat) × List String :=
  match scale with
  | .num r =>
    if 0 < r then
      ((allPairs detectors.length).filter (fun p =>
        decide (detDistance (detectors.getD p.1 default) (detectors.getD p.2 default) * r
          < 0.5)), [])
    else ([], [spacingWarning])
  | .raw _ => ([], [spacingWarning])

theorem hypot_axis (dx : ℚ) : hypot dx 0 = |(dx : ℝ)| := by
  rw [hypot]
  push_cast
  rw [show ((0 : ℝ)) ^ 2 = 0 by norm_num, add_zero, Real.sqrt_sq_eq_abs]

/-- Claim C5 (confirmed): a pair `(i, j)` is reported "too close" iff the
scale is a resolved positive number `r` and the pair is an `i < j` pair of
registry indices at pixel distance times `r` strictly below 0.5 m; the
warning list is empty when the scale is resolved and is exactly the single
skipped-spacing warning otherwise.  In particular (scale 0.01 m/px) two
devices 40 px = 0.4 m apart are reported and two devices 60 px = 0.6 m
apart are not. -/
theorem C5_validate_spacing (scale : ScaleVal) (detectors : List Device) :
    (∀ i j : Nat, (i, j) ∈ (validate_project_spacing scale detectors).1 ↔
      ∃ r : ℝ, scale = ScaleVal.num r ∧ 0 < r ∧ i < j ∧ j < detectors.length ∧
        detDistance (detectors.getD i default) (detectors.getD j default) * r < 0.5) ∧
    ((validate_project_spacing scale detectors).2 = [] ↔ ScaleVal.resolved scale) ∧
    ((validate_project_spacing scale detectors).2 = [] ∨
      (validate_project_spacing scale detectors).2 = [spacingWarning]) ∧
    ((0, 1) ∈ (validate_project_spacing (ScaleVal.num (1/100))
      [⟨0, 0, "", "", "", "", "", "", "", "", "", ("Detector"), 0⟩,
       ⟨40, 0, "", "", "", "", "", "", "", "", "", ("Detector"), 0⟩]).1) ∧
    ((0, 1) ∉ (validate_project_spacing (ScaleVal.num (1/100))
      [⟨0, 0, "", "", "", "", "", "", "", "", "", ("Detector"), 0⟩,
       ⟨60, 0, "", "", "", "", "", "", "", "", "", ("Detector"), 0⟩]).1) := by
  have hmem : ∀ (sc : ScaleVal) (devs : List Device) (i j : Nat),
      (i, j) ∈ (validate_project_spacing sc devs).1 ↔
      ∃ r : ℝ, sc = ScaleVal.num r ∧ 0 < r ∧ i < j ∧ j < devs.length ∧
        detDistance (devs.getD i default) (devs.getD j default) * r < 0.5 := by
    intro sc devs i j
    match sc with
    | .raw s =>
      simp only [validate_project_spacing]
      constructor
      · intro h
        exact absurd h (List.not_mem_nil _)
      · rintro ⟨r, hr, _⟩
        cases hr
    | .num r =>
      rw [validate_project_spacing]
      by_cases hr : 0 < r
      · rw [if_pos hr]
        simp only [List.mem_filter, mem_allPairs, decide_eq_true_eq]
        constructor
        · rintro ⟨⟨hij, hjn⟩, hd⟩
          exact ⟨r, rfl, hr, hij, hjn, hd⟩
        · rintro ⟨r', hr', h1, h2, h3, h4⟩
          cases hr'
          exact ⟨⟨h2, h3⟩, h4⟩
      · rw [if_neg hr]
        constructor
        · intro h
          exact absurd h (List.not_mem_nil _)
        · rintro ⟨r', hr', h1, _⟩
          cases hr'
          exact absurd h1 hr
  have hd40 : detDistance
      (⟨0, 0, "", "", "", "", "", "", "", "", "", ("Detector"), 0⟩ : Device)
      (⟨40, 0, "", "", "", "", "", "", "", "", "", ("Detector"), 0⟩ : Device) = 40 := by
    show hypot (0 - 40) (0 - 0) = 40
    rw [show ((0 : ℚ) - 40) = -40 by norm_num, show ((0 : ℚ) - 0) = 0 by norm_num,
      hypot_axis]
    norm_num
  have hd60 : detDistance
      (⟨0, 0, "", "", "", "", "", "", "", "", "", ("Detector"), 0⟩ : Device)
      (⟨60, 0, "", "", "", "", "", "", "", "", "", ("Detector"), 0⟩ : Device) = 60 := by
    show hypot (0 - 60) (0 - 0) = 60
    rw [show ((0 : ℚ) - 60) = -60 by norm_num, show ((0 : ℚ) - 0) = 0 by norm_num,
      hypot_axis]
    norm_num
  refine ⟨hmem scale detectors, ?_, ?_, ?_, ?_⟩
  · match scale with
    | .num r =>
      rw [validate_project_spacing]
      by_cases hr : 0 < r
      · rw [if_pos hr]
        simpa [ScaleVal.resolved] using hr
      · rw [if_neg hr]
        simp [ScaleVal.resolved, spacingWarning, hr]
    | .raw s => simp [validate_project_spacing, ScaleVal.resolved, spacingWarning]
  · match scale with
    | .num r =>
      rw [validate_project_spacing]
      by_cases hr : 0 < r
      · rw [if_pos hr]; exact Or.inl rfl
      · rw [if_neg hr]; exact Or.inr rfl
    | .raw s => exact Or.inr rfl
  · rw [hmem]
    refine ⟨1/100, rfl, by norm_num, by norm_num, by norm_num, ?_⟩
    show detDistance _ _ * (1/100) < 0.5
    rw [show ((([⟨0, 0, "", "", "", "", "", "", "", "", "", ("Detector"), 0⟩,
       ⟨40, 0, "", "", "", "", "", "", "", "", "", ("Detector"), 0⟩] : List Device).getD 0
        default)) = ⟨0, 0, "", "", "", "", "", "", "", "", "", ("Detector"), 0⟩ from rfl]
    rw [show ((([⟨0, 0, "", "", "", "", "", "", "", "", "", ("Detector"), 0⟩,
       ⟨40, 0, "", "", "", "", "", "", "", "", "", ("Detector"), 0⟩] : List Device).getD 1
        default)) = ⟨40, 0, "", "", "", "", "", "", "", "", "", ("Detector"), 0⟩ from rfl]
    rw [hd40]
    norm_num
  · rw [hmem]
    rintro ⟨r, hr, hpos, _, _, hlt⟩
    cases hr
    rw [show ((([⟨0, 0, "", "", "", "", "", "", "", "", "", ("Detector"), 0⟩,
       ⟨60, 0, "", "", "", "", "", "", "", "", "", ("Detector"), 0⟩] : List Device).getD 0
        default)) = ⟨0, 0, "", "", "", "", "", "", "", "", "", ("Detector"), 0⟩ from rfl] at hlt
    rw [show ((([⟨0, 0, "", "", "", "", "", "", "", "", "", ("Detector"), 0⟩,
       ⟨60, 0, "", "", "", "", "", "", "", "", "", ("Detector"), 0⟩] : List Device).getD 1
        default)) = ⟨60, 0, "", "", "", "", "", "", "", "", "", ("Detector"), 0⟩ from rfl] at hlt
    rw [hd60] at hlt
    norm_num at hlt

/-- `FloorPlanController.set_detector_range` (`floor_plan_controller.py:854-873`)
combined with `SmokeDetector.set_range` (`smoke_detector.py:342-385`): the
numeric range is always stored on the detector; a range circle of radius
`range_meters * (1 / scale)` pixels is drawn only when the scale is a
positive number, otherwise `pixels_per_meter=None` is passed and any circle
is removed.  The result is (stored range, circle radius). -/
noncomputable def set_detector_range (scale : ScaleVal) (range_meters : ℚ) :
    ℚ × Option ℝ :=
  match scale with
  | .num r =>
    if 0 < r then (range_meters, some ((range_meters : ℝ) * (1 / r)))
    else (range_meters, none)
  | .raw _ => (range_meters, none)

/-- The measurement label of `FloorPlanController._on_measure_point`
(`floor_plan_controller.py:638-649`): meters text when the scale is a
positive number, raw pixel text otherwise. -/
inductive MeasureLabel where
  | meters : ℝ → MeasureLabel
  | pixels : ℝ → MeasureLabel

noncomputable def measure_label (scale : ScaleVal) (p1 p2 : ℚ × ℚ) : MeasureLabel :=
  let pix := pixelDistance p1 p2
  match scale with
  | .num r => if 0 < r then .meters (pix * r) else .pixels pix
  | .raw _ => .pixels pix

/-- Claim C10 (confirmed): a numeric scale that is zero or negative behaves
exactly like an unresolved string scale in every pixel-to-meter conversion:
the spacing check is skipped with the same single warning, no range circle
is drawn, and the measurement label falls back to pixels — no meter value
is computed from a non-positive scale. -/
theorem C10_nonpositive_scale (r : ℝ) (hr : r ≤ 0) (s : String)
    (detectors : List Device) (range_meters : ℚ) (p1 p2 : ℚ × ℚ) :
    validate_project_spacing (.num r) detectors =
      validate_project_spacing (.raw s) detectors ∧
    validate_project_spacing (.num r) detectors = ([], [spacingWarning]) ∧
    set_detector_range (.num r) range_meters = set_detector_range (.raw s) range_meters ∧
    (set_detector_range (.num r) range_meters).2 = none ∧
    measure_label (.num r) p1 p2 = measure_label (.raw s) p1 p2 := by
  have h : ¬(0 : ℝ) < r := not_lt.mpr hr
  refine ⟨?_, ?_, ?_, ?_, ?_⟩
  · rw [validate_project_spacing, if_neg h, validate_project_spacing]
  · rw [validate_project_spacing, if_neg h]
  · rw [set_detector_range, if_neg h, set_detector_range]
  · rw [set_detector_range, if_neg h]
  · rw [measure_label, measure_label]
    simp only [if_neg h]

/-- Witness for C10 at `r = 0`: the zero scale is treated as unresolved. -/
theorem C10_nonpositive_scale_witness :
    (0 : ℝ) ≤ 0 ∧
    (validate_project_spacing (.num 0) [] = validate_project_spacing (.raw ("1:100")) [] ∧
      validate_project_spacing (.num 0) [] = ([], [spacingWarning]) ∧
      set_detector_range (.num 0) 5 = set_detector_range (.raw ("1:100")) 5 ∧
      (set_detector_range (.num 0) 5).2 = none ∧
      measure_label (.num 0) (0, 0) (3, 4) = measure_label (.raw ("1:100")) (0, 0) (3, 4)) :=
  ⟨le_refl 0, C10_nonpositive_scale 0 (le_refl 0) ("1:100") [] 5 (0, 0) (3, 4)⟩

/-- A normalized (bus or group) grouping key of `update_address_arrows`:
the Python value `int(raw)` when the conversion succeeds, else the raw
string.  (As Python dict keys, `1` and `"1"` are distinct.) -/
inductive GroupKey where
  | int : Int → GroupKey
  | str : String → GroupKey
  deriving DecidableEq, Repr

def normKey (s : String) : GroupKey :=
  match pyParseInt s with
  | some n => .int n
  | none => .str s

/-- The `addr_val` of `update_address_arrows` (`floor_plan_controller.py:786-793`):
`int(addr)`, else `float(addr)`, else the raw string. -/
inductive AddrVal where
  | int : Int → AddrVal
  | float : ℚ → AddrVal
  | str : String → AddrVal
  deriving DecidableEq, Repr

def addrVal (s : String) : AddrVal :=
  match pyParseInt s with
  | some n => .int n
  | none =>
    match pyParseFloat s with
    | some q => .float q
    | none => .str s

def AddrVal.numVal : AddrVal → Option ℚ
  | .int n => some ((n : ℚ))
  | .float q => some q
  | .str _ => none

/-- The sort order of `sorted(items, key=lambda x: (float(x[0]) if
isinstance(x[0], (int, float)) else float("inf"), str(x[0])))`
(`floor_plan_controller.py:808`): numeric values first in numeric order,
non-numeric values after them ordered by their own string.  Numeric ties
are broken by `str(x[0])`: two equal floats render identically (a tie), and
an int's rendering (`"1"`) is a proper prefix of the equal float's
(`"1.0"`), so an int sorts before an equal float. -/
def addrLE (a b : AddrVal) : Bool :=
  match a.numVal, b.numVal with
  | some x, some y =>
    if x < y then true
    else if y < x then false
    else
      match a, b with
      | .float _, .int _ => false
      | _, _ => true
  | some _, none => true
  | none, some _ => false
  | none, none =>
    match a, b with
    | .str sa, .str sb => decide (sa ≤ sb)
    | _, _ => true

/-- Stable insertion: `x` goes after every already-placed element that
compares less-or-equal to it, reproducing the stability of Python's
`sorted`. -/
def insertStable (le : α → α → Bool) (x : α) : List α → List α
  | [] => [x]
  | y :: ys => if le y x then y :: insertStable le x ys else x :: y :: ys

def stableSort (le : α → α → Bool) (l : List α) : List α :=
  l.foldl (fun acc x => insertStable le x acc) []

/-- Eligibility for address arrows: stripped bus, group and address all
non-empty (`floor_plan_controller.py:769-774`). -/
def arrowEligible (d : Device) : Bool :=
  !(pyStrip d.bus_number == "") && !(pyStrip d.group == "") && !(pyStrip d.address == "")

def deviceGroupKey (d : Device) : GroupKey × GroupKey :=
  (normKey (pyStrip d.bus_number), normKey (pyStrip d.group))

/-- First-occurrence order of keys, as produced by iterating a Python dict
filled with `setdefault`. -/
def orderedKeys (l : List (GroupKey × GroupKey)) : List (GroupKey × GroupKey) :=
  l.foldl (fun acc k => if k ∈ acc then acc else acc ++ [k]) []

def sortGroup (items : List Device) : List Device :=
  stableSort (fun a b =>
    addrLE (addrVal (pyStrip a.address)) (addrVal (pyStrip b.address))) items

/-- The arrow-drawing loop over one sorted group
(`floor_plan_controller.py:814-821`): one arrow per consecutive pair,
except that a pair sitting at exactly the same position is skipped
(`if sx == ex and sy == ey: continue`). -/
def consecutiveArrows : List Device → List (Device × Device)
  | s :: e :: rest =>
    (if s.x = e.x ∧ s.y = e.y then [] else [(s, e)]) ++ consecutiveArrows (e :: rest)
  | _ => []

/-- `FloorPlanController.update_address_arrows`
(`floor_plan_controller.py:743-852`), reported as the list of (start, end)
device pairs of the created arrows: group the eligible devices by
normalized (bus, group), sort each group by address, and link consecutive
pairs, skipping coincident positions. -/
def update_address_arrows (detectors : List Device) : List (Device × Device) :=
  let eligible := detectors.filter arrowEligible
  let keys := orderedKeys (eligible.map deviceGroupKey)
  keys.flatMap (fun k =>
    consecutiveArrows (sortGroup (eligible.filter (fun d => deviceGroupKey d == k))))

/-- All consecutive pairs of a sorted group — the links described by the
specification, with no position-based exception. -/
def consecutivePairs : List Device → List (Device × Device)
  | s :: e :: rest => (s, e) :: consecutivePairs (e :: rest)
  | _ => []

/-- The address-order links described by the specification: same grouping
and sorting as the code, one directional link for each consecutive pair of
each sorted group. -/
def address_order_links (detectors : List Device) : List (Device × Device) :=
  let eligible := detectors.filter arrowEligible
  let keys := orderedKeys (eligible.map deviceGroupKey)
  keys.flatMap (fun k =>
    consecutivePairs (sortGroup (eligible.filter (fun d => deviceGroupKey d == k))))

theorem consecutiveArrows_eq_filter (l : List Device) :
    consecutiveArrows l =
      (consecutivePairs l).filter (fun p => !(p.1.x == p.2.x && p.1.y == p.2.y)) := by
  induction l with
  | nil => rfl
  | cons s rest ih =>
    cases rest with
    | nil => rfl
    | cons e rest2 =>
      show (if s.x = e.x ∧ s.y = e.y then [] else [(s, e)]) ++ consecutiveArrows (e :: rest2) =
        List.filter _ ((s, e) :: consecutivePairs (e :: rest2))
      rw [List.filter_cons, ih]
      by_cases h : s.x = e.x ∧ s.y = e.y
      · rw [if_pos h]
        have hb : (!(s.x == e.x && s.y == e.y)) = false := by
          simp [h.1, h.2]
        rw [hb]
        simp
      · rw [if_neg h]
        have hb : (!(s.x == e.x && s.y == e.y)) = true := by
          rcases not_and_or.mp h with h' | h' <;> simp [h']
        rw [hb]
        simp

/-- Claim C8, counterexample: two devices of the same (bus, group) with
addresses "1" and "2" placed at exactly the same position form a
consecutive pair of the sorted group, so the claim asserts one directional
link between them — but the code skips coincident positions and draws no
arrow at all. -/
theorem C8_arrows_counterexample :
    update_address_arrows
      [⟨0, 0, "", ("1"), ("1"), ("1"), "", "", "", "", "", ("Detector"), 0⟩,
       ⟨0, 0, "", ("1"), ("1"), ("2"), "", "", "", "", "", ("Detector"), 0⟩] = [] ∧
    address_order_links
      [⟨0, 0, "", ("1"), ("1"), ("1"), "", "", "", "", "", ("Detector"), 0⟩,
       ⟨0, 0, "", ("1"), ("1"), ("2"), "", "", "", "", "", ("Detector"), 0⟩] =
      [(⟨0, 0, "", ("1"), ("1"), ("1"), "", "", "", "", "", ("Detector"), 0⟩,
        ⟨0, 0, "", ("1"), ("1"), ("2"), "", "", "", "", "", ("Detector"), 0⟩)] := by
  decide

/-- Claim C8 (amended): the auto-drawn arrows are exactly the links of the
specification's pipeline — group devices with non-empty stripped bus,
group, address by integer-normalized (bus, group), sort each group by
address (numeric values in numeric order before non-numeric ones,
non-numeric ones lexicographically), link each consecutive pair — except
that a consecutive pair whose two devices sit at exactly the same scene
position gets no arrow. -/
theorem C8_update_address_arrows (detectors : List Device) :
    update_address_arrows detectors =
      (address_order_links detectors).filter
        (fun p => !(p.1.x == p.2.x && p.1.y == p.2.y)) := by
  simp only [update_address_arrows, address_order_links]
  rw [List.filter_flatMap]
  congr 1
  funext k
  exact consecutiveArrows_eq_filter _

/-- The aggregate project state serialized by `to_dict` / `from_dict`
(floor-plan image handling omitted — the claim is about devices, scale and
connections).  `lines` are stored as (start, end) indices into `detectors`;
in the Python controller they hold object references, and
`detectors.index(...)` recovers exactly these indices. -/
structure Project where
  scale : ScaleVal
  detectors : List Device
  lines : List (Nat × Nat)

/-- One entry of the serialized `detectors` array
(`floor_plan_controller.py:157-174`). -/
structure DictDevice where
  x : ℚ
  y : ℚ
  model : String
  range : ℚ
  bus_number : String
  group : String
  address : String
  full_address_label : String
  serial_number : String
  room_id : String
  qr_data : String
  brand : String
  paired_sn : String
  device_type : String
  deriving DecidableEq, Repr

/-- The serialized project document (`floorplan` blob fields omitted). -/
structure ProjectDict where
  scale : ScaleVal
  detectors : List DictDevice
  lines : List (Nat × Nat)

/-- One device entry of `to_dict`: positions and attributes via `getattr`
with defaults — `range` and `paired_sn` exist only on the `"Detector"`
class, so the defaults `0` / `""` are produced for the other kinds — and
the recomputed full address label. -/
def deviceToEntry (d : Device) : DictDevice :=
  { x := d.x
    y := d.y
    model := d.model
    range := if d.device_type = "Detector" then d.range else 0
    bus_number := d.bus_number
    group := d.group
    address := d.address
    full_address_label := get_full_address_label d.bus_number d.group d.address
    serial_number := d.serial_number
    room_id := d.room_id
    qr_data := d.qr_data
    brand := d.brand
    paired_sn := if d.device_type = "Detector" then d.paired_sn else ("")
    device_type := d.device_type }

/-- `FloorPlanController.to_dict` (`floor_plan_controller.py:136-186`): the
scale as stored, one entry per device, and the lines as index pairs —
`detectors.index` raises (and the line is skipped) exactly for a dead
reference, modelled as an out-of-range index. -/
def to_dict (p : Project) : ProjectDict :=
  { scale := p.scale
    detectors := p.detectors.map deviceToEntry
    lines := p.lines.filter (fun ln =>
      decide (ln.1 < p.detectors.length) && decide (ln.2 < p.detectors.length)) }

/-- Recreation of one device by `from_dict`
(`floor_plan_controller.py:233-263`): `add_detector` builds the fresh
device from the stored `device_type` (auto-address writes, if any, are dead
— every addressing field is overwritten right after), the stored fields are
assigned, and `paired_sn` / `range` only where the attribute exists
(`hasattr`), i.e. on the `"Detector"` class; `set_detector_range` always
stores the numeric range regardless of the scale. -/
def from_dict_device (item : DictDevice) : Device :=
  let d := mkFreshDevice item.x item.y item.device_type
  let d := { d with
    model := item.model
    bus_number := item.bus_number
    group := item.group
    address := item.address
    room_id := item.room_id
    serial_number := item.serial_number
    qr_data := item.qr_data
    brand := item.brand }
  let d := if d.device_type = "Detector" then { d with paired_sn := item.paired_sn } else d
  let d := if d.device_type = "Detector" then { d with range := item.range } else d
  d

/-- `FloorPlanController.from_dict` (`floor_plan_controller.py:188-279`):
the old registry is cleared (`remove_detector` on every device, which by C9
also removes every connection), the scale is set through `set_scale`, the
devices are recreated in order, and each stored line is recreated when both
indices are in range (an `IndexError` skips the pair). -/
def from_dict (data : ProjectDict) : Project :=
  { scale := set_scale data.scale
    detectors := data.detectors.map from_dict_device
    lines := data.lines.filter (fun ln =>
      decide (ln.1 < data.detectors.length) && decide (ln.2 < data.detectors.length)) }

theorem from_to_device (d : Device)
    (ht : d.device_type = "Detector" ∨ d.device_type = "IO" ∨ d.device_type = "CallPoint")
    (ha : d.device_type ≠ "Detector" → d.range = 0 ∧ d.paired_sn = "") :
    from_dict_device (deviceToEntry d) = d := by
  rcases ht with h | h | h
  · cases d
    simp only [Device.mk.injEq] at h ⊢
    subst h
    simp [from_dict_device, deviceToEntry, mkFreshDevice]
  · cases d
    simp only [Device.mk.injEq] at h ⊢
    subst h
    have ha' := ha (by simp)
    simp only [Device.mk.injEq] at ha'
    simp [from_dict_device, deviceToEntry, mkFreshDevice, ha'.1, ha'.2]
  · cases d
    simp only [Device.mk.injEq] at h ⊢
    subst h
    have ha' := ha (by simp)
    simp only [Device.mk.injEq] at ha'
    simp [from_dict_device, deviceToEntry, mkFreshDevice, ha'.1, ha'.2]

/-- Claim C7 (confirmed): for every project whose stored scale is a
possible `set_scale` result (a fixed point of `set_scale` — every numeric
scale and every stored-raw string qualifies), whose device kinds are from
the closed variant set, whose non-detector devices carry the attribute
defaults for the detector-only fields, and whose connection indices are in
range (in the running controller connections always reference live
devices), deserializing the serialized dictionary reproduces the project:
same device count and per-device fields, same scale, same connection index
pairs. -/
theorem C7_round_trip (p : Project)
    (hscale : set_scale p.scale = p.scale)
    (htype : ∀ d ∈ p.detectors,
      d.device_type = "Detector" ∨ d.device_type = "IO" ∨ d.device_type = "CallPoint")
    (hattrs : ∀ d ∈ p.detectors, d.device_type ≠ "Detector" → d.range = 0 ∧ d.paired_sn = "")
    (hlines : ∀ ln ∈ p.lines, ln.1 < p.detectors.length ∧ ln.2 < p.detectors.length) :
    from_dict (to_dict p) = p := by
  cases p with
  | mk sc devs lns =>
    simp only [to_dict, from_dict, Project.mk.injEq]
    refine ⟨hscale, ?_, ?_⟩
    · rw [List.map_map]
      have hmap : ∀ l : List Device,
          (∀ d ∈ l, d.device_type = "Detector" ∨ d.device_type = "IO" ∨
            d.device_type = "CallPoint") →
          (∀ d ∈ l, d.device_type ≠ "Detector" → d.range = 0 ∧ d.paired_sn = "") →
          l.map (from_dict_device ∘ deviceToEntry) = l := by
        intro l
        induction l with
        | nil => intro _ _; rfl
        | cons d rest ih =>
          intro h1 h2
          rw [List.map_cons]
          rw [show (from_dict_device ∘ deviceToEntry) d = from_dict_device (deviceToEntry d)
            from rfl]
          rw [from_to_device d (h1 d (by simp)) (h2 d (by simp))]
          rw [ih (fun x hx => h1 x (by simp [hx])) (fun x hx => h2 x (by simp [hx]))]
      exact hmap devs htype hattrs
    · simp only [List.length_map]
      have hself : lns.filter (fun ln =>
          decide (ln.1 < devs.length) && decide (ln.2 < devs.length)) = lns := by
        apply List.filter_eq_self.mpr
        intro ln hln
        have := hlines ln hln
        simp [this.1, this.2]
      rw [hself, hself]

/-- Witness for C7: a concrete two-device project (one detector, one IO
box) with one connection and a numeric scale round-trips unchanged. -/
theorem C7_round_trip_witness :
    set_scale (ScaleVal.num 1) = ScaleVal.num 1 ∧
    from_dict (to_dict
      ⟨ScaleVal.num 1,
       [⟨1, 2, ("M1"), ("1"), ("2"), ("3"), ("R"), ("SN1"), ("QR"), ("B"), ("P"),
          ("Detector"), 5⟩,
        ⟨3, 4, ("M2"), ("1"), ("2"), ("4"), ("R2"), ("SN2"), ("QR2"), ("B2"), "",
          ("IO"), 0⟩],
       [(0, 1)]⟩) =
      ⟨ScaleVal.num 1,
       [⟨1, 2, ("M1"), ("1"), ("2"), ("3"), ("R"), ("SN1"), ("QR"), ("B"), ("P"),
          ("Detector"), 5⟩,
        ⟨3, 4, ("M2"), ("1"), ("2"), ("4"), ("R2"), ("SN2"), ("QR2"), ("B2"), "",
          ("IO"), 0⟩],
       [(0, 1)]⟩ :=
  ⟨rfl,
    C7_round_trip _ rfl (by decide) (by decide) (by decide)⟩

end SmokeSignal
